import Mathlib

/-
Verification of the janus-go client library (src/janus.go): a shallow
embedding of its transaction-correlation engine, receive-loop dispatch and
session/handle hierarchy operations, with theorems checking the spec's claims.

Modelling conventions:
  * Go maps become association lists with overwrite-on-insert semantics
    (`lookupA`, `insertA`, `eraseA`).
  * A Go channel is identified by a numeric token; the transaction registry
    maps a transaction-id string to that token.
  * `xid` transaction-id generation is modelled by passing the generated id
    string (`guid`) as an explicit parameter to `send`.
  * The `select` statement of each request call is modelled by a `WaitEvent`
    input: the fixed-timeout branch, the context-cancellation branch, or a
    message delivered on the call's channel.  `waitReply` maps a reply
    arrival time to the event the `select` yields, using the single shared
    constant `timeoutDuration` that every call's `select` references.
  * Pointers (`session.gateway`, `handle.session`) are flattened into
    explicit parameters; mutexes and the websocket transport are elided,
    each call is modelled as the state transformation it performs.
-/

namespace Janus

/-- Lookup in an association list (Go map read). -/
def lookupA {κ α : Type} [DecidableEq κ] : List (κ × α) → κ → Option α
  | [], _ => none
  | (k, v) :: rest, k' => if k' = k then some v else lookupA rest k'

/-- Insert into an association list, overwriting any existing binding
(Go map assignment `m[k] = v`). -/
def insertA {κ α : Type} [DecidableEq κ] : List (κ × α) → κ → α → List (κ × α)
  | [], k, v => [(k, v)]
  | (k0, v0) :: rest, k, v =>
    if k = k0 then (k, v) :: rest else (k0, v0) :: insertA rest k v

/-- Remove a key from an association list (Go `delete(m, k)`). -/
def eraseA {κ α : Type} [DecidableEq κ] : List (κ × α) → κ → List (κ × α)
  | [], _ => []
  | (k0, v0) :: rest, k =>
    if k = k0 then eraseA rest k else (k0, v0) :: eraseA rest k

theorem lookupA_insertA_self {κ α : Type} [DecidableEq κ]
    (l : List (κ × α)) (k : κ) (v : α) : lookupA (insertA l k v) k = some v := by
  induction l with
  | nil => simp [insertA, lookupA]
  | cons hd tl ih =>
      obtain ⟨k0, v0⟩ := hd
      by_cases h : k = k0 <;> simp [insertA, lookupA, h, ih]

theorem lookupA_insertA_ne {κ α : Type} [DecidableEq κ]
    (l : List (κ × α)) (k k' : κ) (v : α) (h : k' ≠ k) :
    lookupA (insertA l k v) k' = lookupA l k' := by
  induction l with
  | nil => simp [insertA, lookupA, h]
  | cons hd tl ih =>
      obtain ⟨k0, v0⟩ := hd
      by_cases h0 : k = k0
      · subst h0; simp [insertA, lookupA, h]
      · by_cases h1 : k' = k0 <;> simp [insertA, lookupA, h0, h1, ih]

theorem lookupA_eraseA_self {κ α : Type} [DecidableEq κ]
    (l : List (κ × α)) (k : κ) : lookupA (eraseA l k) k = none := by
  induction l with
  | nil => simp [eraseA, lookupA]
  | cons hd tl ih =>
      obtain ⟨k0, v0⟩ := hd
      by_cases h : k = k0
      · subst h; simp [eraseA, ih]
      · simp [eraseA, lookupA, h, ih]

theorem lookupA_eraseA_ne {κ α : Type} [DecidableEq κ]
    (l : List (κ × α)) (k k' : κ) (h : k' ≠ k) :
    lookupA (eraseA l k) k' = lookupA l k' := by
  induction l with
  | nil => simp [eraseA, lookupA]
  | cons hd tl ih =>
      obtain ⟨k0, v0⟩ := hd
      by_cases h0 : k = k0
      · subst h0; simp [eraseA, lookupA, h, ih]
      · by_cases h1 : k' = k0 <;> simp [eraseA, lookupA, h0, h1, ih]

/-- Data carried by a `SuccessMsg` (`success.Data.ID`, the server-assigned id). -/
structure SuccessData where
  ID : Nat
deriving DecidableEq

/-- Modelled from the spec: the inbound message variants decoded by the
`msgtypes` registry (declared in a source file not present under src/):
Success (created-resource data), Error (code/reason), Ack, Event
(plugin payload and optional negotiation payload), Info (server snapshot). -/
inductive Msg where
  | success (data : SuccessData)
  | error (code : Nat) (reason : String)
  | ack
  | event (plugindata : String) (jsep : Option String)
  | info (payload : String)
deriving DecidableEq

/-- Modelled from the spec: membership in the `msgtypes` tag registry
(declared in a source file not present under src/); the spec lists the
recognized inbound kinds success, error, ack, event, info, and says an
unrecognized tag is absent from the registry. -/
def recognizedTag (tag : String) : Bool :=
  tag = "success" || tag = "error" || tag = "ack" || tag = "event" || tag = "info"

/-- The common envelope `BaseMsg` (fields used by `recv`: `base.Type`,
`base.ID` the transaction id, `base.Session`, `base.Handle`). -/
structure BaseMsg where
  TypeTag : String
  ID : String
  Session : Nat
  Handle : Nat
deriving DecidableEq

/-- An event stream (`chan interface{}` with a buffer): its capacity as
allocated by `make`, and its buffered contents. -/
structure EventChan where
  cap : Nat
  buf : List Msg
deriving DecidableEq

/-- A plugin handle (`Handle`): server-assigned id, `Type`/`User` tags and
its `Events` stream.  The `session` back-pointer is passed explicitly. -/
structure Handle where
  ID : Nat
  typ : String
  user : String
  Events : EventChan
deriving DecidableEq

/-- A session (`Session`): server-assigned id, map of plugin handles, and
its `Events` stream.  The `gateway` back-pointer is passed explicitly. -/
structure Session where
  ID : Nat
  Handles : List (Nat × Handle)
  Events : EventChan
deriving DecidableEq

/-- The gateway (`Gateway`): active sessions, the transaction registry
(`transactions` maps an id to a delivery-channel token, `transactionsUsed`
flags ids whose reply was an Event), and the optional api secret. -/
structure Gateway where
  Sessions : List (Nat × Session)
  transactions : List (String × Nat)
  transactionsUsed : List (String × Bool)
  apiSecret : String
deriving DecidableEq

/-- A value stored in an outgoing request envelope (`map[string]interface{}`):
a string field, a numeric field, or an opaque payload (body/jsep/candidates). -/
inductive Val where
  | str (s : String)
  | num (n : Nat)
  | payload (p : String)
deriving DecidableEq

/-- An outgoing request envelope: the JSON object under construction. -/
def Envelope : Type := List (String × Val)

/-- Observable side effects of `Gateway.send`, in program order: the registry
mutation under the gateway lock, then the write to the websocket transport. -/
inductive Effect where
  | registerTx (id : String)
  | write (env : Envelope)

/-- The result of `Gateway.send`: the mutated gateway, the completed
envelope, and the ordered effect trace. -/
structure SendOut where
  g : Gateway
  env : Envelope
  effs : List Effect

/-- The `newRequest` helper: a fresh envelope with `req["janus"] = method`
(the fresh unbuffered channel is the caller-chosen token). -/
def newRequest (method : String) : Envelope :=
  [("janus", Val.str method)]

/-- The `Gateway.send` method: sets `msg["transaction"]` to the generated id,
attaches `msg["apisecret"]` when the secret is non-empty, registers the
transaction (channel plus used-flag false) under the lock, then marshals and
writes the envelope to the transport. -/
def Gateway.send (gateway : Gateway) (guid : String) (msg : Envelope)
    (transaction : Nat) : SendOut :=
  let msg1 : Envelope := insertA msg "transaction" (Val.str guid)
  let msg2 : Envelope :=
    if gateway.apiSecret ≠ "" then insertA msg1 "apisecret" (Val.str gateway.apiSecret)
    else msg1
  { g := { gateway with
            transactions := insertA gateway.transactions guid transaction,
            transactionsUsed := insertA gateway.transactionsUsed guid false },
    env := msg2,
    effs := [Effect.registerTx guid, Effect.write msg2] }

/-- The `Session.send` method: sets `msg["session_id"]` to the session's id
and forwards to `Gateway.send`. -/
def Session.send (session : Session) (gateway : Gateway) (guid : String)
    (msg : Envelope) (transaction : Nat) : SendOut :=
  Gateway.send gateway guid (insertA msg "session_id" (Val.num session.ID)) transaction

/-- The `Handle.send` method: sets `msg["handle_id"]` to the handle's id and
forwards to `Session.send`. -/
def Handle.send (handle : Handle) (session : Session) (gateway : Gateway)
    (guid : String) (msg : Envelope) (transaction : Nat) : SendOut :=
  Session.send session gateway guid (insertA msg "handle_id" (Val.num handle.ID)) transaction

/-- One inbound wire message as seen by one iteration of `recv`: the result
of decoding the common envelope (`none` = `json.Unmarshal` failure on
`BaseMsg`) and, for a recognized tag, of decoding the full typed payload
(`none` = secondary `json.Unmarshal` failure). -/
structure Inbound where
  envelope : Option BaseMsg
  payload : Option Msg
deriving DecidableEq

/-- Where one iteration of `recv` routed the message. -/
inductive Delivery where
  | discarded
  | unknownTag
  | sessionGone
  | handleGone
  | handleEvent (sid hid : Nat) (m : Msg)
  | sessionEvent (sid : Nat) (m : Msg)
  | txReply (id : String) (ch : Nat) (m : Msg)
deriving DecidableEq

/-- The outcome of one iteration of `recv`: either the loop returns an error
(terminating the goroutine) or it continues with the updated gateway and the
routing decision taken. -/
inductive RecvResult where
  | fatal (e : String)
  | step (g : Gateway) (d : Delivery)
deriving DecidableEq

/-- One iteration of the `Gateway.recv` loop body, translated branch by
branch: envelope decode (failure fatal), tag lookup in `msgtypes` (unknown
tag logged and skipped), payload decode (failure fatal), then the routing
decision: no transaction id or a used one means push/event handling (zero
handle id silently discarded; missing session or handle logged and dropped;
otherwise the message goes to the handle's events channel), else correlated
reply handling (Event payload marks the transaction used; a missing
transaction is the fatal null-transaction error; otherwise the message goes
to the transaction's channel). -/
def recvStep (gateway : Gateway) (inb : Inbound) : RecvResult :=
  match inb.envelope with
  | none => RecvResult.fatal "json.Unmarshal base"
  | some base =>
    if recognizedTag base.TypeTag = false then RecvResult.step gateway Delivery.unknownTag
    else
      match inb.payload with
      | none => RecvResult.fatal "json.Unmarshal msg"
      | some msg =>
        let transactionUsed : Bool :=
          if base.ID ≠ "" then (lookupA gateway.transactionsUsed base.ID).getD false
          else false
        if base.ID = "" ∨ transactionUsed = true then
          if base.Handle = 0 then RecvResult.step gateway Delivery.discarded
          else
            match lookupA gateway.Sessions base.Session with
            | none => RecvResult.step gateway Delivery.sessionGone
            | some session =>
              match lookupA session.Handles base.Handle with
              | none => RecvResult.step gateway Delivery.handleGone
              | some _handle =>
                RecvResult.step gateway (Delivery.handleEvent base.Session base.Handle msg)
        else
          let transaction := lookupA gateway.transactions base.ID
          let gateway1 :=
            match msg with
            | Msg.event _ _ =>
                { gateway with transactionsUsed := insertA gateway.transactionsUsed base.ID true }
            | _ => gateway
          match transaction with
          | none => RecvResult.fatal "null transaction"
          | some ch => RecvResult.step gateway1 (Delivery.txReply base.ID ch msg)

/-- The client-side request timeout `timeoutDuration = 1 * time.Second`,
in seconds: the single constant referenced by every request call's
`select`. -/
def timeoutDuration : Nat := 1

/-- What a request call's `select` yields: the `time.After(timeoutDuration)`
branch, the `ctx.Done()` branch, or a message delivered on the call's
channel. -/
inductive WaitEvent where
  | timeout
  | ctxDone
  | reply (m : Msg)
deriving DecidableEq

/-- The event the `select` yields when the correlated reply reaches the
call's channel `t` seconds after the wait begins (or never, for `none`):
the reply wins only if it arrives before `timeoutDuration` elapses. -/
def waitReply (arrival : Option (Nat × Msg)) : WaitEvent :=
  match arrival with
  | none => WaitEvent.timeout
  | some (t, m) => if t < timeoutDuration then WaitEvent.reply m else WaitEvent.timeout

/-- Content of an `InfoMsg` (opaque server snapshot). -/
structure InfoData where
  payload : String
deriving DecidableEq

/-- Content of an `EventMsg` (plugin payload plus optional jsep). -/
structure EventData where
  plugindata : String
  jsep : Option String
deriving DecidableEq

/-- How a request call returns to its caller, translating Go's
`(result, error)` pair: a non-nil result, the `*ErrorMsg` returned as the
error value, the timeout error string for the named request, `ctx.Err()`,
the `unexpected(request)` error, a nil-pointer-dereference runtime panic
(`success.Data` with `success == nil`), or the `(nil, nil)` return that
`Destroy`/`Detach` take on a reply kind their switch does not cover. -/
inductive CallReturn (α : Type) where
  | ok (v : α)
  | errorReply (code : Nat) (reason : String)
  | timedOut (request : String)
  | ctxCancelled
  | unexpectedResp (request : String)
  | panicNilDeref
  | okNil
deriving DecidableEq

/-- The `Gateway.Info` call: sends an `info` request, then one `select`;
an `InfoMsg` is returned, an `ErrorMsg` is returned as the error, any other
reply kind falls through to `unexpected("info")`. -/
def Gateway.Info (gateway : Gateway) (guid : String) (ch : Nat)
    (ev : WaitEvent) : CallReturn InfoData × Gateway :=
  let so := gateway.send guid (newRequest "info") ch
  match ev with
  | WaitEvent.timeout => (CallReturn.timedOut "info", so.g)
  | WaitEvent.ctxDone => (CallReturn.ctxCancelled, so.g)
  | WaitEvent.reply m =>
    match m with
    | Msg.info payload => (CallReturn.ok ⟨payload⟩, so.g)
    | Msg.error c r => (CallReturn.errorReply c r, so.g)
    | _ => (CallReturn.unexpectedResp "info", so.g)

/-- The `Gateway.Create` call: sends a `create` request; on a `SuccessMsg`
it builds a `Session` with the server-provided id, an empty handle map and
a 2-buffered events channel, and stores it in `Gateway.Sessions`; an
`ErrorMsg` is returned as the error; any other reply kind leaves
`success == nil` and the subsequent `success.Data.ID` dereference panics. -/
def Gateway.Create (gateway : Gateway) (guid : String) (ch : Nat)
    (ev : WaitEvent) : CallReturn Session × Gateway :=
  let so := gateway.send guid (newRequest "create") ch
  match ev with
  | WaitEvent.timeout => (CallReturn.timedOut "create", so.g)
  | WaitEvent.ctxDone => (CallReturn.ctxCancelled, so.g)
  | WaitEvent.reply m =>
    match m with
    | Msg.success data =>
        let session : Session := { ID := data.ID, Handles := [], Events := ⟨2, []⟩ }
        (CallReturn.ok session,
         { so.g with Sessions := insertA so.g.Sessions session.ID session })
    | Msg.error c r => (CallReturn.errorReply c r, so.g)
    | _ => (CallReturn.panicNilDeref, so.g)

/-- The `Session.Attach` call: sends an `attach` request with the plugin
name; on a `SuccessMsg` it builds a `Handle` with the server-provided id
and an 8-buffered events channel and stores it in `Session.Handles`; an
`ErrorMsg` is returned as the error; any other reply kind leaves
`success == nil` and the subsequent `success.Data.ID` dereference panics. -/
def Session.Attach (session : Session) (gateway : Gateway) (guid : String)
    (ch : Nat) (plugin : String) (ev : WaitEvent) :
    CallReturn Handle × Session × Gateway :=
  let req := insertA (newRequest "attach") "plugin" (Val.str plugin)
  let so := session.send gateway guid req ch
  match ev with
  | WaitEvent.timeout => (CallReturn.timedOut "attach", session, so.g)
  | WaitEvent.ctxDone => (CallReturn.ctxCancelled, session, so.g)
  | WaitEvent.reply m =>
    match m with
    | Msg.success data =>
        let handle : Handle := { ID := data.ID, typ := "", user := "", Events := ⟨8, []⟩ }
        (CallReturn.ok handle,
         { session with Handles := insertA session.Handles handle.ID handle }, so.g)
    | Msg.error c r => (CallReturn.errorReply c r, session, so.g)
    | _ => (CallReturn.panicNilDeref, session, so.g)

/-- The `Session.KeepAlive` call: sends a `keepalive` request; an `AckMsg`
is returned, an `ErrorMsg` is returned as the error, any other reply kind
falls through to `unexpected("keepalive")`. -/
def Session.KeepAlive (session : Session) (gateway : Gateway) (guid : String)
    (ch : Nat) (ev : WaitEvent) : CallReturn Unit × Gateway :=
  let so := session.send gateway guid (newRequest "keepalive") ch
  match ev with
  | WaitEvent.timeout => (CallReturn.timedOut "keepalive", so.g)
  | WaitEvent.ctxDone => (CallReturn.ctxCancelled, so.g)
  | WaitEvent.reply m =>
    match m with
    | Msg.ack => (CallReturn.ok (), so.g)
    | Msg.error c r => (CallReturn.errorReply c r, so.g)
    | _ => (CallReturn.unexpectedResp "keepalive", so.g)

/-- The `Session.Destroy` call: sends a `destroy` request; an `ErrorMsg`
returns early as the error; an `AckMsg` sets `ack`, and any other reply kind
leaves `ack == nil` — both fall through to the deletion of the session from
`Gateway.Sessions` and return `(ack, nil)`. -/
def Session.Destroy (session : Session) (gateway : Gateway) (guid : String)
    (ch : Nat) (ev : WaitEvent) : CallReturn Unit × Gateway :=
  let so := session.send gateway guid (newRequest "destroy") ch
  match ev with
  | WaitEvent.timeout => (CallReturn.timedOut "destroy", so.g)
  | WaitEvent.ctxDone => (CallReturn.ctxCancelled, so.g)
  | WaitEvent.reply m =>
    match m with
    | Msg.error c r => (CallReturn.errorReply c r, so.g)
    | Msg.ack =>
        (CallReturn.ok (), { so.g with Sessions := eraseA so.g.Sessions session.ID })
    | _ =>
        (CallReturn.okNil, { so.g with Sessions := eraseA so.g.Sessions session.ID })

/-- The `Handle.Request` call: sends a `message` request with an optional
body; a `SuccessMsg` is returned, an `ErrorMsg` is returned as the error,
any other reply kind falls through to `unexpected("message")`. -/
def Handle.Request (handle : Handle) (session : Session) (gateway : Gateway)
    (guid : String) (ch : Nat) (body : Option Val) (ev : WaitEvent) :
    CallReturn SuccessData × Gateway :=
  let req0 := newRequest "message"
  let req := match body with
    | some b => insertA req0 "body" b
    | none => req0
  let so := handle.send session gateway guid req ch
  match ev with
  | WaitEvent.timeout => (CallReturn.timedOut "message", so.g)
  | WaitEvent.ctxDone => (CallReturn.ctxCancelled, so.g)
  | WaitEvent.reply m =>
    match m with
    | Msg.success data => (CallReturn.ok data, so.g)
    | Msg.error c r => (CallReturn.errorReply c r, so.g)
    | _ => (CallReturn.unexpectedResp "message", so.g)

/-- The `GetMessage` loop inside `Handle.Message`: each iteration is one
`select`; an `AckMsg` jumps back to the label and waits again on the same
channel, an `EventMsg` returns it, an `ErrorMsg` returns it as the error,
any other reply kind falls through to `unexpected("message")`.  `none`
means the given events were exhausted with the call still waiting. -/
def messageSelectLoop : List WaitEvent → Option (CallReturn EventData)
  | [] => none
  | ev :: rest =>
    match ev with
    | WaitEvent.timeout => some (CallReturn.timedOut "message")
    | WaitEvent.ctxDone => some CallReturn.ctxCancelled
    | WaitEvent.reply m =>
      match m with
      | Msg.ack => messageSelectLoop rest
      | Msg.event pd jsep => some (CallReturn.ok ⟨pd, jsep⟩)
      | Msg.error c r => some (CallReturn.errorReply c r)
      | _ => some (CallReturn.unexpectedResp "message")

/-- The `Handle.Message` call: sends a `message` request with optional body
and jsep, then runs the `GetMessage` loop over the events its channel
yields. -/
def Handle.Message (handle : Handle) (session : Session) (gateway : Gateway)
    (guid : String) (ch : Nat) (body jsep : Option Val)
    (evs : List WaitEvent) : Option (CallReturn EventData) × Gateway :=
  let req0 := newRequest "message"
  let req1 := match body with
    | some b => insertA req0 "body" b
    | none => req0
  let req := match jsep with
    | some j => insertA req1 "jsep" j
    | none => req1
  let so := handle.send session gateway guid req ch
  (messageSelectLoop evs, so.g)

/-- The `Handle.Trickle` call: sends a `trickle` request with the candidate;
an `AckMsg` is returned, an `ErrorMsg` is returned as the error, any other
reply kind falls through to `unexpected("trickle")`. -/
def Handle.Trickle (handle : Handle) (session : Session) (gateway : Gateway)
    (guid : String) (ch : Nat) (candidate : Val) (ev : WaitEvent) :
    CallReturn Unit × Gateway :=
  let req := insertA (newRequest "trickle") "candidate" candidate
  let so := handle.send session gateway guid req ch
  match ev with
  | WaitEvent.timeout => (CallReturn.timedOut "trickle", so.g)
  | WaitEvent.ctxDone => (CallReturn.ctxCancelled, so.g)
  | WaitEvent.reply m =>
    match m with
    | Msg.ack => (CallReturn.ok (), so.g)
    | Msg.error c r => (CallReturn.errorReply c r, so.g)
    | _ => (CallReturn.unexpectedResp "trickle", so.g)

/-- The `Handle.TrickleMany` call: sends a `trickle` request with the
candidate array; an `AckMsg` is returned, an `ErrorMsg` is returned as the
error, any other reply kind falls through to `unexpected("trickle")`. -/
def Handle.TrickleMany (handle : Handle) (session : Session) (gateway : Gateway)
    (guid : String) (ch : Nat) (candidates : Val) (ev : WaitEvent) :
    CallReturn Unit × Gateway :=
  let req := insertA (newRequest "trickle") "candidates" candidates
  let so := handle.send session gateway guid req ch
  match ev with
  | WaitEvent.timeout => (CallReturn.timedOut "trickle/many", so.g)
  | WaitEvent.ctxDone => (CallReturn.ctxCancelled, so.g)
  | WaitEvent.reply m =>
    match m with
    | Msg.ack => (CallReturn.ok (), so.g)
    | Msg.error c r => (CallReturn.errorReply c r, so.g)
    | _ => (CallReturn.unexpectedResp "trickle", so.g)

/-- The `Handle.Detach` call: sends a `detach` request; an `ErrorMsg`
returns early as the error; an `AckMsg` sets `ack`, and any other reply kind
leaves `ack == nil` — both fall through to the deletion of the handle from
`Session.Handles` and return `(ack, nil)`. -/
def Handle.Detach (handle : Handle) (session : Session) (gateway : Gateway)
    (guid : String) (ch : Nat) (ev : WaitEvent) :
    CallReturn Unit × Session × Gateway :=
  let so := handle.send session gateway guid (newRequest "detach") ch
  match ev with
  | WaitEvent.timeout => (CallReturn.timedOut "detach", session, so.g)
  | WaitEvent.ctxDone => (CallReturn.ctxCancelled, session, so.g)
  | WaitEvent.reply m =>
    match m with
    | Msg.error c r => (CallReturn.errorReply c r, session, so.g)
    | Msg.ack =>
        (CallReturn.ok (),
         { session with Handles := eraseA session.Handles handle.ID }, so.g)
    | _ =>
        (CallReturn.okNil,
         { session with Handles := eraseA session.Handles handle.ID }, so.g)

theorem messageSelectLoop_replicate_ack (n : Nat) (l : List WaitEvent) :
    messageSelectLoop (List.replicate n (WaitEvent.reply Msg.ack) ++ l)
      = messageSelectLoop l := by
  induction n with
  | zero => simp
  | succ k ih => simpa [List.replicate_succ, messageSelectLoop] using ih

/-- Claim C6: a `Message` call that receives one or more Ack replies followed
by an Event reply on its channel returns only the `EventMsg` payload to the
caller; an intermediate Ack never completes the call, which resumes waiting
on the same channel after each Ack. -/
theorem message_acks_then_event_returns_event :
    (∀ (handle : Handle) (session : Session) (gateway : Gateway)
        (guid : String) (ch : Nat) (body jsep : Option Val)
        (n : Nat) (pd : String) (j : Option String),
      (Handle.Message handle session gateway guid ch body jsep
          (List.replicate n (WaitEvent.reply Msg.ack)
            ++ [WaitEvent.reply (Msg.event pd j)])).1
        = some (CallReturn.ok ⟨pd, j⟩))
    ∧ (∀ rest : List WaitEvent,
        messageSelectLoop (WaitEvent.reply Msg.ack :: rest) = messageSelectLoop rest) := by
  constructor
  · intro handle session gateway guid ch body jsep n pd j
    simp [Handle.Message, messageSelectLoop_replicate_ack, messageSelectLoop]
  · intro rest
    simp [messageSelectLoop]

/-- Claim C8: in the receive loop, a decode failure of the common envelope is
fatal (the loop terminates and propagates the error); an unrecognized type
tag is logged and skipped, the loop continuing with the gateway unchanged;
a decode failure of the full payload of a recognized tag is fatal. -/
theorem recv_decode_and_tag_fault_policy :
    (∀ (gateway : Gateway) (p : Option Msg),
      recvStep gateway ⟨none, p⟩ = RecvResult.fatal "json.Unmarshal base")
    ∧ (∀ (gateway : Gateway) (base : BaseMsg) (p : Option Msg),
        recognizedTag base.TypeTag = false →
        recvStep gateway ⟨some base, p⟩ = RecvResult.step gateway Delivery.unknownTag)
    ∧ (∀ (gateway : Gateway) (base : BaseMsg),
        recognizedTag base.TypeTag = true →
        recvStep gateway ⟨some base, none⟩ = RecvResult.fatal "json.Unmarshal msg") := by
  refine ⟨fun gateway p => rfl, fun gateway base p h => by simp [recvStep, h],
    fun gateway base h => by simp [recvStep, h]⟩

theorem recv_decode_and_tag_fault_policy_witness :
    recvStep ⟨[], [], [], ""⟩ ⟨none, none⟩ = RecvResult.fatal "json.Unmarshal base"
    ∧ recvStep ⟨[], [], [], ""⟩ ⟨some ⟨"bogus", "", 0, 0⟩, some Msg.ack⟩
        = RecvResult.step ⟨[], [], [], ""⟩ Delivery.unknownTag
    ∧ recvStep ⟨[], [], [], ""⟩ ⟨some ⟨"ack", "", 0, 0⟩, none⟩
        = RecvResult.fatal "json.Unmarshal msg" :=
  ⟨recv_decode_and_tag_fault_policy.1 ⟨[], [], [], ""⟩ none,
   recv_decode_and_tag_fault_policy.2.1 ⟨[], [], [], ""⟩ ⟨"bogus", "", 0, 0⟩
     (some Msg.ack) (by rfl),
   recv_decode_and_tag_fault_policy.2.2 ⟨[], [], [], ""⟩ ⟨"ack", "", 0, 0⟩ (by rfl)⟩

/-- Claim C3: in the receive loop, an inbound message whose transaction id
is present and not marked consumed but has no registered transaction
terminates the loop with the fatal null-transaction error, whereas a
push/event message whose session id or handle id has no registered Session
or Handle is logged and dropped with the loop continuing (non-fatal), the
gateway unchanged. -/
theorem missing_transaction_fatal_missing_hierarchy_nonfatal :
    (∀ (gateway : Gateway) (base : BaseMsg) (m : Msg),
      recognizedTag base.TypeTag = true →
      base.ID ≠ "" →
      (lookupA gateway.transactionsUsed base.ID).getD false = false →
      lookupA gateway.transactions base.ID = none →
      recvStep gateway ⟨some base, some m⟩ = RecvResult.fatal "null transaction")
    ∧ (∀ (gateway : Gateway) (base : BaseMsg) (m : Msg),
        recognizedTag base.TypeTag = true →
        (base.ID = "" ∨ (lookupA gateway.transactionsUsed base.ID).getD false = true) →
        base.Handle ≠ 0 →
        lookupA gateway.Sessions base.Session = none →
        recvStep gateway ⟨some base, some m⟩ = RecvResult.step gateway Delivery.sessionGone)
    ∧ (∀ (gateway : Gateway) (base : BaseMsg) (m : Msg) (session : Session),
        recognizedTag base.TypeTag = true →
        (base.ID = "" ∨ (lookupA gateway.transactionsUsed base.ID).getD false = true) →
        base.Handle ≠ 0 →
        lookupA gateway.Sessions base.Session = some session →
        lookupA session.Handles base.Handle = none →
        recvStep gateway ⟨some base, some m⟩ = RecvResult.step gateway Delivery.handleGone) := by
  refine ⟨?_, ?_, ?_⟩
  · intro gateway base m htag hid hused hnone
    rcases m with data | ⟨c, r⟩ | _ | ⟨pd, j⟩ | p <;>
      simp [recvStep, htag, hid, hused, hnone]
  · intro gateway base m htag hpush hh hsess
    rcases hpush with h0 | h1
    · simp [recvStep, htag, h0, hh, hsess]
    · by_cases h0 : base.ID = ""
      · simp [recvStep, htag, h0, hh, hsess]
      · simp [recvStep, htag, h0, h1, hh, hsess]
  · intro gateway base m session htag hpush hh hsess hhandle
    rcases hpush with h0 | h1
    · simp [recvStep, htag, h0, hh, hsess, hhandle]
    · by_cases h0 : base.ID = ""
      · simp [recvStep, htag, h0, hh, hsess, hhandle]
      · simp [recvStep, htag, h0, h1, hh, hsess, hhandle]

theorem missing_transaction_fatal_missing_hierarchy_nonfatal_witness :
    recvStep ⟨[], [], [], ""⟩ ⟨some ⟨"ack", "tx1", 0, 0⟩, some Msg.ack⟩
        = RecvResult.fatal "null transaction"
    ∧ recvStep ⟨[], [], [], ""⟩ ⟨some ⟨"event", "", 3, 4⟩, some (Msg.event "p" none)⟩
        = RecvResult.step ⟨[], [], [], ""⟩ Delivery.sessionGone
    ∧ recvStep ⟨[(3, ⟨3, [], ⟨2, []⟩⟩)], [], [], ""⟩
          ⟨some ⟨"event", "", 3, 4⟩, some (Msg.event "p" none)⟩
        = RecvResult.step ⟨[(3, ⟨3, [], ⟨2, []⟩⟩)], [], [], ""⟩ Delivery.handleGone :=
  ⟨missing_transaction_fatal_missing_hierarchy_nonfatal.1 ⟨[], [], [], ""⟩
     ⟨"ack", "tx1", 0, 0⟩ Msg.ack (by rfl) (by simp) (by rfl) (by rfl),
   missing_transaction_fatal_missing_hierarchy_nonfatal.2.1 ⟨[], [], [], ""⟩
     ⟨"event", "", 3, 4⟩ (Msg.event "p" none) (by rfl) (Or.inl (by rfl)) (by simp) (by rfl),
   missing_transaction_fatal_missing_hierarchy_nonfatal.2.2
     ⟨[(3, ⟨3, [], ⟨2, []⟩⟩)], [], [], ""⟩ ⟨"event", "", 3, 4⟩ (Msg.event "p" none)
     ⟨3, [], ⟨2, []⟩⟩ (by rfl) (Or.inl (by rfl)) (by simp) (by rfl) (by rfl)⟩

/-- Claim C2: an inbound message carrying a registered, not-yet-consumed
transaction id whose payload is an Event-kind message makes the dispatcher
mark that transaction consumed while keeping its id registered (the reply is
still delivered to the transaction's channel), and every later inbound
message carrying the same transaction id is routed as a push event to the
Handle named by its handle id, not treated as a correlated reply and not
treated as an unmatched-transaction fault. -/
theorem event_reply_marks_consumed_then_routes_pushes
    (gateway gateway1 : Gateway) (id : String) (ch : Nat)
    (tag1 tag2 : String) (sid0 hid0 : Nat) (pd : String) (j : Option String)
    (sid hid : Nat) (m2 : Msg) (session : Session) (handle : Handle)
    (htag1 : recognizedTag tag1 = true)
    (htag2 : recognizedTag tag2 = true)
    (hid' : id ≠ "")
    (hreg : lookupA gateway.transactions id = some ch)
    (hunused : (lookupA gateway.transactionsUsed id).getD false = false)
    (hg1 : gateway1
      = { gateway with transactionsUsed := insertA gateway.transactionsUsed id true })
    (hh : hid ≠ 0)
    (hsess : lookupA gateway.Sessions sid = some session)
    (hhandle : lookupA session.Handles hid = some handle) :
    recvStep gateway ⟨some ⟨tag1, id, sid0, hid0⟩, some (Msg.event pd j)⟩
        = RecvResult.step gateway1 (Delivery.txReply id ch (Msg.event pd j))
    ∧ lookupA gateway1.transactions id = some ch
    ∧ recvStep gateway1 ⟨some ⟨tag2, id, sid, hid⟩, some m2⟩
        = RecvResult.step gateway1 (Delivery.handleEvent sid hid m2) := by
  subst hg1
  refine ⟨?_, ?_, ?_⟩
  · simp [recvStep, htag1, hid', hunused, hreg]
  · exact hreg
  · simp [recvStep, htag2, hid', lookupA_insertA_self, hh, hsess, hhandle]

theorem event_reply_marks_consumed_then_routes_pushes_witness :
    recvStep ⟨[(3, ⟨3, [(9, ⟨9, "", "", ⟨8, []⟩⟩)], ⟨2, []⟩⟩)], [("tx1", 5)], [], ""⟩
        ⟨some ⟨"event", "tx1", 3, 9⟩, some (Msg.event "p" none)⟩
      = RecvResult.step
          ⟨[(3, ⟨3, [(9, ⟨9, "", "", ⟨8, []⟩⟩)], ⟨2, []⟩⟩)], [("tx1", 5)], [("tx1", true)], ""⟩
          (Delivery.txReply "tx1" 5 (Msg.event "p" none))
    ∧ lookupA (⟨[(3, ⟨3, [(9, ⟨9, "", "", ⟨8, []⟩⟩)], ⟨2, []⟩⟩)], [("tx1", 5)],
          [("tx1", true)], ""⟩ : Gateway).transactions "tx1" = some 5
    ∧ recvStep ⟨[(3, ⟨3, [(9, ⟨9, "", "", ⟨8, []⟩⟩)], ⟨2, []⟩⟩)], [("tx1", 5)], [("tx1", true)], ""⟩
          ⟨some ⟨"event", "tx1", 3, 9⟩, some (Msg.event "q" none)⟩
        = RecvResult.step
            ⟨[(3, ⟨3, [(9, ⟨9, "", "", ⟨8, []⟩⟩)], ⟨2, []⟩⟩)], [("tx1", 5)], [("tx1", true)], ""⟩
            (Delivery.handleEvent 3 9 (Msg.event "q" none)) :=
  event_reply_marks_consumed_then_routes_pushes
    ⟨[(3, ⟨3, [(9, ⟨9, "", "", ⟨8, []⟩⟩)], ⟨2, []⟩⟩)], [("tx1", 5)], [], ""⟩
    ⟨[(3, ⟨3, [(9, ⟨9, "", "", ⟨8, []⟩⟩)], ⟨2, []⟩⟩)], [("tx1", 5)], [("tx1", true)], ""⟩
    "tx1" 5 "event" "event" 3 9 "p" none 3 9 (Msg.event "q" none)
    ⟨3, [(9, ⟨9, "", "", ⟨8, []⟩⟩)], ⟨2, []⟩⟩ ⟨9, "", "", ⟨8, []⟩⟩
    (by rfl) (by rfl) (by simp) (by rfl) (by rfl) (by rfl) (by simp) (by rfl) (by rfl)

/-- Claim C4: a request that completes with its terminal success reply
performs the corresponding hierarchy mutation exactly once and strictly
after the success confirmation: `Create` inserts into `Gateway.Sessions` a
Session whose ID is the server-provided id from the Success reply's data,
`Attach` inserts into `Session.Handles` a Handle with the server-provided
id, `Destroy` (resp. `Detach`) deletes the session (resp. handle) entry;
every other map entry is untouched, and before any reply arrives (timeout)
the map is unchanged. -/
theorem success_reply_performs_hierarchy_mutation_once :
    (∀ (gateway : Gateway) (guid : String) (ch : Nat) (d : SuccessData),
      (Gateway.Create gateway guid ch (WaitEvent.reply (Msg.success d))).1
          = CallReturn.ok ⟨d.ID, [], ⟨2, []⟩⟩
      ∧ lookupA (Gateway.Create gateway guid ch
            (WaitEvent.reply (Msg.success d))).2.Sessions d.ID
          = some ⟨d.ID, [], ⟨2, []⟩⟩)
    ∧ (∀ (gateway : Gateway) (guid : String) (ch : Nat) (d : SuccessData) (sid : Nat),
        sid ≠ d.ID →
        lookupA (Gateway.Create gateway guid ch
            (WaitEvent.reply (Msg.success d))).2.Sessions sid
          = lookupA gateway.Sessions sid)
    ∧ (∀ (gateway : Gateway) (guid : String) (ch : Nat),
        (Gateway.Create gateway guid ch WaitEvent.timeout).2.Sessions = gateway.Sessions)
    ∧ (∀ (session : Session) (gateway : Gateway) (guid : String) (ch : Nat)
          (plugin : String) (d : SuccessData),
        (Session.Attach session gateway guid ch plugin
            (WaitEvent.reply (Msg.success d))).1
            = CallReturn.ok ⟨d.ID, "", "", ⟨8, []⟩⟩
        ∧ lookupA (Session.Attach session gateway guid ch plugin
              (WaitEvent.reply (Msg.success d))).2.1.Handles d.ID
            = some ⟨d.ID, "", "", ⟨8, []⟩⟩)
    ∧ (∀ (session : Session) (gateway : Gateway) (guid : String) (ch : Nat)
          (plugin : String) (d : SuccessData) (hid : Nat),
        hid ≠ d.ID →
        lookupA (Session.Attach session gateway guid ch plugin
            (WaitEvent.reply (Msg.success d))).2.1.Handles hid
          = lookupA session.Handles hid)
    ∧ (∀ (session : Session) (gateway : Gateway) (guid : String) (ch : Nat)
          (plugin : String),
        (Session.Attach session gateway guid ch plugin WaitEvent.timeout).2.1 = session)
    ∧ (∀ (session : Session) (gateway : Gateway) (guid : String) (ch : Nat),
        (Session.Destroy session gateway guid ch (WaitEvent.reply Msg.ack)).1
            = CallReturn.ok ()
        ∧ lookupA (Session.Destroy session gateway guid ch
              (WaitEvent.reply Msg.ack)).2.Sessions session.ID = none)
    ∧ (∀ (session : Session) (gateway : Gateway) (guid : String) (ch : Nat) (sid : Nat),
        sid ≠ session.ID →
        lookupA (Session.Destroy session gateway guid ch
            (WaitEvent.reply Msg.ack)).2.Sessions sid
          = lookupA gateway.Sessions sid)
    ∧ (∀ (session : Session) (gateway : Gateway) (guid : String) (ch : Nat),
        (Session.Destroy session gateway guid ch WaitEvent.timeout).2.Sessions
          = gateway.Sessions)
    ∧ (∀ (handle : Handle) (session : Session) (gateway : Gateway)
          (guid : String) (ch : Nat),
        (Handle.Detach handle session gateway guid ch (WaitEvent.reply Msg.ack)).1
            = CallReturn.ok ()
        ∧ lookupA (Handle.Detach handle session gateway guid ch
              (WaitEvent.reply Msg.ack)).2.1.Handles handle.ID = none)
    ∧ (∀ (handle : Handle) (session : Session) (gateway : Gateway)
          (guid : String) (ch : Nat) (hid : Nat),
        hid ≠ handle.ID →
        lookupA (Handle.Detach handle session gateway guid ch
            (WaitEvent.reply Msg.ack)).2.1.Handles hid
          = lookupA session.Handles hid)
    ∧ (∀ (handle : Handle) (session : Session) (gateway : Gateway)
          (guid : String) (ch : Nat),
        (Handle.Detach handle session gateway guid ch WaitEvent.timeout).2.1 = session) := by
  refine ⟨?_, ?_, ?_, ?_, ?_, ?_, ?_, ?_, ?_, ?_, ?_, ?_⟩
  · intro gateway guid ch d
    exact ⟨rfl, lookupA_insertA_self _ _ _⟩
  · intro gateway guid ch d sid h
    exact lookupA_insertA_ne _ _ _ _ h
  · intro gateway guid ch
    rfl
  · intro session gateway guid ch plugin d
    exact ⟨rfl, lookupA_insertA_self _ _ _⟩
  · intro session gateway guid ch plugin d hid h
    exact lookupA_insertA_ne _ _ _ _ h
  · intro session gateway guid ch plugin
    rfl
  · intro session gateway guid ch
    exact ⟨rfl, lookupA_eraseA_self _ _⟩
  · intro session gateway guid ch sid h
    exact lookupA_eraseA_ne _ _ _ h
  · intro session gateway guid ch
    rfl
  · intro handle session gateway guid ch
    exact ⟨rfl, lookupA_eraseA_self _ _⟩
  · intro handle session gateway guid ch hid h
    exact lookupA_eraseA_ne _ _ _ h
  · intro handle session gateway guid ch
    rfl

theorem success_reply_performs_hierarchy_mutation_once_witness :
    (Gateway.Create ⟨[], [], [], ""⟩ "t1" 5 (WaitEvent.reply (Msg.success ⟨7⟩))).1
        = CallReturn.ok ⟨7, [], ⟨2, []⟩⟩
    ∧ lookupA (Gateway.Create ⟨[], [], [], ""⟩ "t1" 5
          (WaitEvent.reply (Msg.success ⟨7⟩))).2.Sessions 7 = some ⟨7, [], ⟨2, []⟩⟩
    ∧ lookupA (Gateway.Create ⟨[], [], [], ""⟩ "t1" 5
          (WaitEvent.reply (Msg.success ⟨7⟩))).2.Sessions 3
        = lookupA (⟨[], [], [], ""⟩ : Gateway).Sessions 3
    ∧ (Session.Destroy ⟨7, [], ⟨2, []⟩⟩ ⟨[(7, ⟨7, [], ⟨2, []⟩⟩)], [], [], ""⟩ "t2" 6
          (WaitEvent.reply Msg.ack)).1 = CallReturn.ok ()
    ∧ lookupA (Session.Destroy ⟨7, [], ⟨2, []⟩⟩ ⟨[(7, ⟨7, [], ⟨2, []⟩⟩)], [], [], ""⟩ "t2" 6
          (WaitEvent.reply Msg.ack)).2.Sessions 7 = none
    ∧ (Handle.Detach ⟨9, "", "", ⟨8, []⟩⟩ ⟨7, [(9, ⟨9, "", "", ⟨8, []⟩⟩)], ⟨2, []⟩⟩
          ⟨[(7, ⟨7, [(9, ⟨9, "", "", ⟨8, []⟩⟩)], ⟨2, []⟩⟩)], [], [], ""⟩ "t3" 6
          (WaitEvent.reply Msg.ack)).1 = CallReturn.ok ()
    ∧ lookupA (Handle.Detach ⟨9, "", "", ⟨8, []⟩⟩ ⟨7, [(9, ⟨9, "", "", ⟨8, []⟩⟩)], ⟨2, []⟩⟩
          ⟨[(7, ⟨7, [(9, ⟨9, "", "", ⟨8, []⟩⟩)], ⟨2, []⟩⟩)], [], [], ""⟩ "t3" 6
          (WaitEvent.reply Msg.ack)).2.1.Handles 9 = none :=
  ⟨(success_reply_performs_hierarchy_mutation_once.1 ⟨[], [], [], ""⟩ "t1" 5 ⟨7⟩).1,
   (success_reply_performs_hierarchy_mutation_once.1 ⟨[], [], [], ""⟩ "t1" 5 ⟨7⟩).2,
   success_reply_performs_hierarchy_mutation_once.2.1 ⟨[], [], [], ""⟩ "t1" 5 ⟨7⟩ 3
     (by decide),
   (success_reply_performs_hierarchy_mutation_once.2.2.2.2.2.2.1
     ⟨7, [], ⟨2, []⟩⟩ ⟨[(7, ⟨7, [], ⟨2, []⟩⟩)], [], [], ""⟩ "t2" 6).1,
   (success_reply_performs_hierarchy_mutation_once.2.2.2.2.2.2.1
     ⟨7, [], ⟨2, []⟩⟩ ⟨[(7, ⟨7, [], ⟨2, []⟩⟩)], [], [], ""⟩ "t2" 6).2,
   (success_reply_performs_hierarchy_mutation_once.2.2.2.2.2.2.2.2.2.1
     ⟨9, "", "", ⟨8, []⟩⟩ ⟨7, [(9, ⟨9, "", "", ⟨8, []⟩⟩)], ⟨2, []⟩⟩
     ⟨[(7, ⟨7, [(9, ⟨9, "", "", ⟨8, []⟩⟩)], ⟨2, []⟩⟩)], [], [], ""⟩ "t3" 6).1,
   (success_reply_performs_hierarchy_mutation_once.2.2.2.2.2.2.2.2.2.1
     ⟨9, "", "", ⟨8, []⟩⟩ ⟨7, [(9, ⟨9, "", "", ⟨8, []⟩⟩)], ⟨2, []⟩⟩
     ⟨[(7, ⟨7, [(9, ⟨9, "", "", ⟨8, []⟩⟩)], ⟨2, []⟩⟩)], [], [], ""⟩ "t3" 6).2⟩

/-- Claim C5: a request that receives an Error-kind reply returns that reply
to its caller as an error value carrying the server's code and reason and
leaves the hierarchy unchanged: in particular a `Destroy` whose reply is an
Error leaves `Gateway.Sessions` exactly as it was (so the session stays
present), and a `Detach` whose reply is an Error leaves the session's
`Handles` map exactly as it was (so the handle stays present). -/
theorem error_reply_returns_error_and_preserves_hierarchy
    (handle : Handle) (session : Session) (gateway : Gateway) (guid : String)
    (ch : Nat) (plugin : String) (body jsep : Option Val) (cand : Val)
    (c : Nat) (r : String) :
    (Gateway.Info gateway guid ch (WaitEvent.reply (Msg.error c r))).1
        = CallReturn.errorReply c r
    ∧ (Gateway.Info gateway guid ch (WaitEvent.reply (Msg.error c r))).2.Sessions
        = gateway.Sessions
    ∧ (Gateway.Create gateway guid ch (WaitEvent.reply (Msg.error c r))).1
        = CallReturn.errorReply c r
    ∧ (Gateway.Create gateway guid ch (WaitEvent.reply (Msg.error c r))).2.Sessions
        = gateway.Sessions
    ∧ (Session.Attach session gateway guid ch plugin
          (WaitEvent.reply (Msg.error c r))).1 = CallReturn.errorReply c r
    ∧ (Session.Attach session gateway guid ch plugin
          (WaitEvent.reply (Msg.error c r))).2.1 = session
    ∧ (Session.KeepAlive session gateway guid ch (WaitEvent.reply (Msg.error c r))).1
        = CallReturn.errorReply c r
    ∧ (Session.Destroy session gateway guid ch (WaitEvent.reply (Msg.error c r))).1
        = CallReturn.errorReply c r
    ∧ (Session.Destroy session gateway guid ch
          (WaitEvent.reply (Msg.error c r))).2.Sessions = gateway.Sessions
    ∧ (Handle.Request handle session gateway guid ch body
          (WaitEvent.reply (Msg.error c r))).1 = CallReturn.errorReply c r
    ∧ (Handle.Message handle session gateway guid ch body jsep
          [WaitEvent.reply (Msg.error c r)]).1 = some (CallReturn.errorReply c r)
    ∧ (Handle.Trickle handle session gateway guid ch cand
          (WaitEvent.reply (Msg.error c r))).1 = CallReturn.errorReply c r
    ∧ (Handle.TrickleMany handle session gateway guid ch cand
          (WaitEvent.reply (Msg.error c r))).1 = CallReturn.errorReply c r
    ∧ (Handle.Detach handle session gateway guid ch
          (WaitEvent.reply (Msg.error c r))).1 = CallReturn.errorReply c r
    ∧ (Handle.Detach handle session gateway guid ch
          (WaitEvent.reply (Msg.error c r))).2.1 = session :=
  ⟨rfl, rfl, rfl, rfl, rfl, rfl, rfl, rfl, rfl, rfl, rfl, rfl, rfl, rfl, rfl⟩

/-- Claim C7: every request call waits under the single shared constant
`timeoutDuration` (no per-call override): any reply arriving at or after
that bound yields the timeout branch for every request kind, the call
returns a timeout error to its caller, and the transaction registered by
its send is left in place in the registry (neither removed nor cancelled),
with the hierarchy untouched. -/
theorem timeout_returns_timeout_and_keeps_transaction
    (handle : Handle) (session : Session) (gateway : Gateway) (guid : String)
    (ch : Nat) (plugin : String) (body jsep : Option Val) (cand : Val)
    (t : Nat) (m : Msg) (h : timeoutDuration ≤ t) :
    waitReply none = WaitEvent.timeout
    ∧ waitReply (some (t, m)) = WaitEvent.timeout
    ∧ (Gateway.Info gateway guid ch (waitReply (some (t, m)))).1
        = CallReturn.timedOut "info"
    ∧ lookupA (Gateway.Info gateway guid ch
        (waitReply (some (t, m)))).2.transactions guid = some ch
    ∧ lookupA (Gateway.Info gateway guid ch
        (waitReply (some (t, m)))).2.transactionsUsed guid = some false
    ∧ (Gateway.Info gateway guid ch (waitReply (some (t, m)))).2.Sessions
        = gateway.Sessions
    ∧ (Gateway.Create gateway guid ch (waitReply (some (t, m)))).1
        = CallReturn.timedOut "create"
    ∧ lookupA (Gateway.Create gateway guid ch
        (waitReply (some (t, m)))).2.transactions guid = some ch
    ∧ (Gateway.Create gateway guid ch (waitReply (some (t, m)))).2.Sessions
        = gateway.Sessions
    ∧ (Session.Attach session gateway guid ch plugin (waitReply (some (t, m)))).1
        = CallReturn.timedOut "attach"
    ∧ (Session.Attach session gateway guid ch plugin (waitReply (some (t, m)))).2.1
        = session
    ∧ lookupA (Session.Attach session gateway guid ch plugin
        (waitReply (some (t, m)))).2.2.transactions guid = some ch
    ∧ (Session.KeepAlive session gateway guid ch (waitReply (some (t, m)))).1
        = CallReturn.timedOut "keepalive"
    ∧ lookupA (Session.KeepAlive session gateway guid ch
        (waitReply (some (t, m)))).2.transactions guid = some ch
    ∧ (Session.Destroy session gateway guid ch (waitReply (some (t, m)))).1
        = CallReturn.timedOut "destroy"
    ∧ (Session.Destroy session gateway guid ch (waitReply (some (t, m)))).2.Sessions
        = gateway.Sessions
    ∧ lookupA (Session.Destroy session gateway guid ch
        (waitReply (some (t, m)))).2.transactions guid = some ch
    ∧ (Handle.Request handle session gateway guid ch body (waitReply (some (t, m)))).1
        = CallReturn.timedOut "message"
    ∧ lookupA (Handle.Request handle session gateway guid ch body
        (waitReply (some (t, m)))).2.transactions guid = some ch
    ∧ (Handle.Message handle session gateway guid ch body jsep
        [waitReply (some (t, m))]).1 = some (CallReturn.timedOut "message")
    ∧ lookupA (Handle.Message handle session gateway guid ch body jsep
        [waitReply (some (t, m))]).2.transactions guid = some ch
    ∧ (Handle.Trickle handle session gateway guid ch cand (waitReply (some (t, m)))).1
        = CallReturn.timedOut "trickle"
    ∧ lookupA (Handle.Trickle handle session gateway guid ch cand
        (waitReply (some (t, m)))).2.transactions guid = some ch
    ∧ (Handle.TrickleMany handle session gateway guid ch cand
        (waitReply (some (t, m)))).1 = CallReturn.timedOut "trickle/many"
    ∧ lookupA (Handle.TrickleMany handle session gateway guid ch cand
        (waitReply (some (t, m)))).2.transactions guid = some ch
    ∧ (Handle.Detach handle session gateway guid ch (waitReply (some (t, m)))).1
        = CallReturn.timedOut "detach"
    ∧ (Handle.Detach handle session gateway guid ch (waitReply (some (t, m)))).2.1
        = session
    ∧ lookupA (Handle.Detach handle session gateway guid ch
        (waitReply (some (t, m)))).2.2.transactions guid = some ch := by
  have hw : waitReply (some (t, m)) = WaitEvent.timeout := by
    unfold waitReply
    simp [Nat.not_lt.mpr h]
  rw [hw]
  exact ⟨rfl, rfl, rfl,
    lookupA_insertA_self gateway.transactions guid ch,
    lookupA_insertA_self gateway.transactionsUsed guid false,
    rfl, rfl,
    lookupA_insertA_self gateway.transactions guid ch,
    rfl, rfl, rfl,
    lookupA_insertA_self gateway.transactions guid ch,
    rfl,
    lookupA_insertA_self gateway.transactions guid ch,
    rfl, rfl,
    lookupA_insertA_self gateway.transactions guid ch,
    rfl,
    lookupA_insertA_self gateway.transactions guid ch,
    rfl,
    lookupA_insertA_self gateway.transactions guid ch,
    rfl,
    lookupA_insertA_self gateway.transactions guid ch,
    rfl,
    lookupA_insertA_self gateway.transactions guid ch,
    rfl, rfl,
    lookupA_insertA_self gateway.transactions guid ch⟩

theorem timeout_returns_timeout_and_keeps_transaction_witness :
    waitReply (some (1, Msg.ack)) = WaitEvent.timeout
    ∧ (Gateway.Info ⟨[], [], [], ""⟩ "t1" 5 (waitReply (some (1, Msg.ack)))).1
        = CallReturn.timedOut "info"
    ∧ lookupA (Gateway.Info ⟨[], [], [], ""⟩ "t1" 5
        (waitReply (some (1, Msg.ack)))).2.transactions "t1" = some 5
    ∧ (Session.Destroy ⟨7, [], ⟨2, []⟩⟩ ⟨[(7, ⟨7, [], ⟨2, []⟩⟩)], [], [], ""⟩ "t1" 5
        (waitReply (some (1, Msg.ack)))).2.Sessions = [(7, ⟨7, [], ⟨2, []⟩⟩)] :=
  ⟨(timeout_returns_timeout_and_keeps_transaction ⟨9, "", "", ⟨8, []⟩⟩ ⟨7, [], ⟨2, []⟩⟩
      ⟨[], [], [], ""⟩ "t1" 5 "p" none none (Val.str "c") 1 Msg.ack (by decide)).2.1,
   (timeout_returns_timeout_and_keeps_transaction ⟨9, "", "", ⟨8, []⟩⟩ ⟨7, [], ⟨2, []⟩⟩
      ⟨[], [], [], ""⟩ "t1" 5 "p" none none (Val.str "c") 1 Msg.ack (by decide)).2.2.1,
   (timeout_returns_timeout_and_keeps_transaction ⟨9, "", "", ⟨8, []⟩⟩ ⟨7, [], ⟨2, []⟩⟩
      ⟨[], [], [], ""⟩ "t1" 5 "p" none none (Val.str "c") 1 Msg.ack (by decide)).2.2.2.1,
   (timeout_returns_timeout_and_keeps_transaction ⟨9, "", "", ⟨8, []⟩⟩ ⟨7, [], ⟨2, []⟩⟩
      ⟨[(7, ⟨7, [], ⟨2, []⟩⟩)], [], [], ""⟩ "t1" 5 "p" none none (Val.str "c") 1 Msg.ack
      (by decide)).2.2.2.2.2.2.2.2.2.2.2.2.2.2.2.1⟩

/-- Claim C9: for every outgoing request, `send` writes the generated
transaction id into the envelope's `transaction` field and registers it in
the transaction registry (channel plus used-flag `false`) before the write
to the transport (the effect trace is registration then write); the
`apisecret` field is attached exactly when the configured secret is
non-empty; every session-scoped request carries `session_id` equal to the
Session's ID and every handle-scoped request additionally carries
`handle_id` equal to the Handle's ID.  The generated id `guid` models the
output of `generateTransactionId`. -/
theorem send_sets_fields_and_registers_before_write
    (handle : Handle) (session : Session) (gateway : Gateway) (guid : String)
    (ch : Nat) (msg : Envelope)
    (hclean : lookupA msg "apisecret" = none) :
    lookupA (Gateway.send gateway guid msg ch).env "transaction" = some (Val.str guid)
    ∧ (gateway.apiSecret ≠ "" →
        lookupA (Gateway.send gateway guid msg ch).env "apisecret"
          = some (Val.str gateway.apiSecret))
    ∧ (gateway.apiSecret = "" →
        lookupA (Gateway.send gateway guid msg ch).env "apisecret" = none)
    ∧ lookupA (Gateway.send gateway guid msg ch).g.transactions guid = some ch
    ∧ lookupA (Gateway.send gateway guid msg ch).g.transactionsUsed guid = some false
    ∧ (Gateway.send gateway guid msg ch).effs
        = [Effect.registerTx guid, Effect.write (Gateway.send gateway guid msg ch).env]
    ∧ lookupA (Session.send session gateway guid msg ch).env "session_id"
        = some (Val.num session.ID)
    ∧ lookupA (Session.send session gateway guid msg ch).env "transaction"
        = some (Val.str guid)
    ∧ lookupA (Handle.send handle session gateway guid msg ch).env "handle_id"
        = some (Val.num handle.ID)
    ∧ lookupA (Handle.send handle session gateway guid msg ch).env "session_id"
        = some (Val.num session.ID)
    ∧ lookupA (Handle.send handle session gateway guid msg ch).env "transaction"
        = some (Val.str guid)
    ∧ (Handle.send handle session gateway guid msg ch).effs
        = [Effect.registerTx guid,
           Effect.write (Handle.send handle session gateway guid msg ch).env] := by
  have Lta : ∀ (l : Envelope) (v : Val),
      lookupA (insertA l "apisecret" v) "transaction" = lookupA l "transaction" :=
    fun l v => lookupA_insertA_ne l "apisecret" "transaction" v (by decide)
  have Lsa : ∀ (l : Envelope) (v : Val),
      lookupA (insertA l "apisecret" v) "session_id" = lookupA l "session_id" :=
    fun l v => lookupA_insertA_ne l "apisecret" "session_id" v (by decide)
  have Lst : ∀ (l : Envelope) (v : Val),
      lookupA (insertA l "transaction" v) "session_id" = lookupA l "session_id" :=
    fun l v => lookupA_insertA_ne l "transaction" "session_id" v (by decide)
  have Lha : ∀ (l : Envelope) (v : Val),
      lookupA (insertA l "apisecret" v) "handle_id" = lookupA l "handle_id" :=
    fun l v => lookupA_insertA_ne l "apisecret" "handle_id" v (by decide)
  have Lht : ∀ (l : Envelope) (v : Val),
      lookupA (insertA l "transaction" v) "handle_id" = lookupA l "handle_id" :=
    fun l v => lookupA_insertA_ne l "transaction" "handle_id" v (by decide)
  have Lhs : ∀ (l : Envelope) (v : Val),
      lookupA (insertA l "session_id" v) "handle_id" = lookupA l "handle_id" :=
    fun l v => lookupA_insertA_ne l "session_id" "handle_id" v (by decide)
  have Lat : ∀ (l : Envelope) (v : Val),
      lookupA (insertA l "transaction" v) "apisecret" = lookupA l "apisecret" :=
    fun l v => lookupA_insertA_ne l "transaction" "apisecret" v (by decide)
  by_cases hs : gateway.apiSecret = "" <;>
    refine ⟨?_, ?_, ?_, lookupA_insertA_self _ _ _, lookupA_insertA_self _ _ _, rfl,
      ?_, ?_, ?_, ?_, ?_, rfl⟩ <;>
    simp [Gateway.send, Session.send, Handle.send, hs, hclean,
      lookupA_insertA_self, Lta, Lsa, Lst, Lha, Lht, Lhs, Lat]

theorem send_sets_fields_and_registers_before_write_witness :
    lookupA (Gateway.send ⟨[], [], [], "sec"⟩ "t1" (newRequest "info") 5).env "transaction"
        = some (Val.str "t1")
    ∧ lookupA (Gateway.send ⟨[], [], [], "sec"⟩ "t1" (newRequest "info") 5).env "apisecret"
        = some (Val.str "sec")
    ∧ lookupA (Gateway.send ⟨[], [], [], ""⟩ "t1" (newRequest "info") 5).env "apisecret"
        = none
    ∧ lookupA (Handle.send ⟨9, "", "", ⟨8, []⟩⟩ ⟨7, [], ⟨2, []⟩⟩ ⟨[], [], [], ""⟩ "t1"
          (newRequest "detach") 5).env "session_id" = some (Val.num 7)
    ∧ lookupA (Handle.send ⟨9, "", "", ⟨8, []⟩⟩ ⟨7, [], ⟨2, []⟩⟩ ⟨[], [], [], ""⟩ "t1"
          (newRequest "detach") 5).env "handle_id" = some (Val.num 9)
    ∧ (Gateway.send ⟨[], [], [], "sec"⟩ "t1" (newRequest "info") 5).effs
        = [Effect.registerTx "t1",
           Effect.write (Gateway.send ⟨[], [], [], "sec"⟩ "t1" (newRequest "info") 5).env] :=
  ⟨(send_sets_fields_and_registers_before_write ⟨9, "", "", ⟨8, []⟩⟩ ⟨7, [], ⟨2, []⟩⟩
      ⟨[], [], [], "sec"⟩ "t1" 5 (newRequest "info") (by rfl)).1,
   (send_sets_fields_and_registers_before_write ⟨9, "", "", ⟨8, []⟩⟩ ⟨7, [], ⟨2, []⟩⟩
      ⟨[], [], [], "sec"⟩ "t1" 5 (newRequest "info") (by rfl)).2.1 (by simp),
   (send_sets_fields_and_registers_before_write ⟨9, "", "", ⟨8, []⟩⟩ ⟨7, [], ⟨2, []⟩⟩
      ⟨[], [], [], ""⟩ "t1" 5 (newRequest "info") (by rfl)).2.2.1 (by rfl),
   (send_sets_fields_and_registers_before_write ⟨9, "", "", ⟨8, []⟩⟩ ⟨7, [], ⟨2, []⟩⟩
      ⟨[], [], [], ""⟩ "t1" 5 (newRequest "detach") (by rfl)).2.2.2.2.2.2.2.2.2.1,
   (send_sets_fields_and_registers_before_write ⟨9, "", "", ⟨8, []⟩⟩ ⟨7, [], ⟨2, []⟩⟩
      ⟨[], [], [], ""⟩ "t1" 5 (newRequest "detach") (by rfl)).2.2.2.2.2.2.2.2.1,
   (send_sets_fields_and_registers_before_write ⟨9, "", "", ⟨8, []⟩⟩ ⟨7, [], ⟨2, []⟩⟩
      ⟨[], [], [], "sec"⟩ "t1" 5 (newRequest "info") (by rfl)).2.2.2.2.2.1⟩

/-- Helper: any continuing iteration of `recv` never routes to a session's
events stream and leaves the session map untouched. -/
theorem recvStep_step_inv (gateway : Gateway) (inb : Inbound) (g' : Gateway)
    (d : Delivery) (h : recvStep gateway inb = RecvResult.step g' d) :
    (∀ (sid : Nat) (m : Msg), d ≠ Delivery.sessionEvent sid m)
    ∧ g'.Sessions = gateway.Sessions := by
  obtain ⟨env, pay⟩ := inb
  rcases env with _ | base
  · simp [recvStep] at h
  by_cases htag : recognizedTag base.TypeTag = false
  · rw [show recvStep gateway ⟨some base, pay⟩
        = RecvResult.step gateway Delivery.unknownTag by simp [recvStep, htag]] at h
    injection h with h1 h2
    subst h1
    subst h2
    exact ⟨fun sid m => by simp, rfl⟩
  rcases pay with _ | msg
  · simp [recvStep, htag] at h
  have hfinish : ∀ (g0 : Gateway) (dd : Delivery),
      recvStep gateway ⟨some base, some msg⟩ = RecvResult.step g0 dd →
      g0.Sessions = gateway.Sessions →
      (∀ (sid : Nat) (m : Msg), dd ≠ Delivery.sessionEvent sid m) →
      (∀ (sid : Nat) (m : Msg), d ≠ Delivery.sessionEvent sid m)
      ∧ g'.Sessions = gateway.Sessions := by
    intro g0 dd he hsess hne
    rw [he] at h
    injection h with h1 h2
    subst h1
    subst h2
    exact ⟨hne, hsess⟩
  by_cases hid : base.ID = ""
  · by_cases hh : base.Handle = 0
    · exact hfinish gateway Delivery.discarded
        (by simp [recvStep, htag, hid, hh]) rfl (fun sid m => by simp)
    · cases hsess : lookupA gateway.Sessions base.Session with
      | none =>
          exact hfinish gateway Delivery.sessionGone
            (by simp [recvStep, htag, hid, hh, hsess]) rfl (fun sid m => by simp)
      | some session =>
          cases hhd : lookupA session.Handles base.Handle with
          | none =>
              exact hfinish gateway Delivery.handleGone
                (by simp [recvStep, htag, hid, hh, hsess, hhd]) rfl (fun sid m => by simp)
          | some hd =>
              exact hfinish gateway (Delivery.handleEvent base.Session base.Handle msg)
                (by simp [recvStep, htag, hid, hh, hsess, hhd]) rfl (fun sid m => by simp)
  · by_cases hused : (lookupA gateway.transactionsUsed base.ID).getD false = true
    · by_cases hh : base.Handle = 0
      · exact hfinish gateway Delivery.discarded
          (by simp [recvStep, htag, hid, hused, hh]) rfl (fun sid m => by simp)
      · cases hsess : lookupA gateway.Sessions base.Session with
        | none =>
            exact hfinish gateway Delivery.sessionGone
              (by simp [recvStep, htag, hid, hused, hh, hsess]) rfl (fun sid m => by simp)
        | some session =>
            cases hhd : lookupA session.Handles base.Handle with
            | none =>
                exact hfinish gateway Delivery.handleGone
                  (by simp [recvStep, htag, hid, hused, hh, hsess, hhd]) rfl
                  (fun sid m => by simp)
            | some hd =>
                exact hfinish gateway (Delivery.handleEvent base.Session base.Handle msg)
                  (by simp [recvStep, htag, hid, hused, hh, hsess, hhd]) rfl
                  (fun sid m => by simp)
    · have hused' : (lookupA gateway.transactionsUsed base.ID).getD false = false := by
        revert hused
        cases (lookupA gateway.transactionsUsed base.ID).getD false <;> simp
      cases htx : lookupA gateway.transactions base.ID with
      | none =>
          rcases msg with data | ⟨c, r⟩ | _ | ⟨pd, j⟩ | p <;>
            simp [recvStep, htag, hid, hused', htx] at h
      | some ch =>
          rcases msg with data | ⟨c, r⟩ | _ | ⟨pd, j⟩ | p
          · exact hfinish gateway (Delivery.txReply base.ID ch (Msg.success data))
              (by simp [recvStep, htag, hid, hused', htx]) rfl (fun sid m => by simp)
          · exact hfinish gateway (Delivery.txReply base.ID ch (Msg.error c r))
              (by simp [recvStep, htag, hid, hused', htx]) rfl (fun sid m => by simp)
          · exact hfinish gateway (Delivery.txReply base.ID ch Msg.ack)
              (by simp [recvStep, htag, hid, hused', htx]) rfl (fun sid m => by simp)
          · exact hfinish
              { gateway with
                  transactionsUsed := insertA gateway.transactionsUsed base.ID true }
              (Delivery.txReply base.ID ch (Msg.event pd j))
              (by simp [recvStep, htag, hid, hused', htx]) rfl (fun sid m => by simp)
          · exact hfinish gateway (Delivery.txReply base.ID ch (Msg.info p))
              (by simp [recvStep, htag, hid, hused', htx]) rfl (fun sid m => by simp)

/-- Claim C10: the dispatcher never sends a message on a Session's `Events`
channel: every continuing iteration of `recv` leaves every session (and so
every session's events stream) untouched and never routes to a session's
events stream; an inbound message with no transaction id (or a consumed
one) and a zero handle id is silently discarded; only Handle event streams
receive dispatched events, even though `Create` allocates a 2-buffered
`Events` channel on every Session it builds. -/
theorem no_session_events_delivery :
    (∀ (gateway : Gateway) (inb : Inbound) (g' : Gateway) (d : Delivery),
      recvStep gateway inb = RecvResult.step g' d →
      (∀ (sid : Nat) (m : Msg), d ≠ Delivery.sessionEvent sid m)
      ∧ g'.Sessions = gateway.Sessions)
    ∧ (∀ (gateway : Gateway) (base : BaseMsg) (m : Msg),
        recognizedTag base.TypeTag = true →
        (base.ID = "" ∨ (lookupA gateway.transactionsUsed base.ID).getD false = true) →
        base.Handle = 0 →
        recvStep gateway ⟨some base, some m⟩ = RecvResult.step gateway Delivery.discarded)
    ∧ (∀ (gateway : Gateway) (guid : String) (ch : Nat) (d : SuccessData),
        (Gateway.Create gateway guid ch (WaitEvent.reply (Msg.success d))).1
          = CallReturn.ok ⟨d.ID, [], ⟨2, []⟩⟩) := by
  refine ⟨?_, ?_, ?_⟩
  · intro gateway inb g' d h
    exact recvStep_step_inv gateway inb g' d h
  · intro gateway base m htag hpush hh
    rcases hpush with h0 | h1
    · simp [recvStep, htag, h0, hh]
    · by_cases h0 : base.ID = ""
      · simp [recvStep, htag, h0, hh]
      · simp [recvStep, htag, h0, h1, hh]
  · intro gateway guid ch d
    rfl

theorem no_session_events_delivery_witness :
    ((Delivery.handleEvent 3 9 Msg.ack ≠ Delivery.sessionEvent 3 Msg.ack)
      ∧ (⟨[], [("tx1", 5)], [], ""⟩ : Gateway).Sessions = ([] : List (Nat × Session)))
    ∧ recvStep ⟨[], [], [], ""⟩ ⟨some ⟨"event", "", 3, 0⟩, some (Msg.event "p" none)⟩
        = RecvResult.step ⟨[], [], [], ""⟩ Delivery.discarded :=
  ⟨⟨fun hcontra => by
      have hne := (no_session_events_delivery.1
        ⟨[], [("tx1", 5)], [], ""⟩
        ⟨some ⟨"event", "", 3, 9⟩, some Msg.ack⟩
        ⟨[], [("tx1", 5)], [], ""⟩ (Delivery.handleEvent 3 9 Msg.ack) (by
          exact absurd hcontra (by simp))).1 3 Msg.ack
      exact hne hcontra,
    (no_session_events_delivery.1
        ⟨[], [("tx1", 5)], [], ""⟩
        ⟨some ⟨"event", "", 3, 0⟩, some Msg.ack⟩
        ⟨[], [("tx1", 5)], [], ""⟩ Delivery.discarded (by rfl)).2⟩,
   no_session_events_delivery.2.1 ⟨[], [], [], ""⟩ ⟨"event", "", 3, 0⟩
     (Msg.event "p" none) (by rfl) (Or.inl (by rfl)) (by rfl)⟩

/-- Claim C1 (refuted by the code): the four hierarchy calls do not take
the unexpected-response error path.  At the failing input, a `Destroy`
whose channel delivers a Success-kind reply deletes the session from
`Gateway.Sessions` anyway and returns `(nil, nil)` — no error and a
hierarchy mutation — and a `Create` whose channel delivers an Ack-kind
reply dereferences the nil `success` pointer (runtime panic) instead of
returning the unexpected-response error.  A `Trickle` receiving a
Success-kind reply does return the unexpected-response error with no
mutation, as the claim says, so the claim holds only for the six
non-mutating calls. -/
theorem destroy_unexpected_reply_mutates_and_create_panics :
    (Session.Destroy ⟨7, [], ⟨2, []⟩⟩ ⟨[(7, ⟨7, [], ⟨2, []⟩⟩)], [], [], ""⟩ "t1" 5
        (WaitEvent.reply (Msg.success ⟨0⟩))).1 = CallReturn.okNil
    ∧ lookupA (Session.Destroy ⟨7, [], ⟨2, []⟩⟩ ⟨[(7, ⟨7, [], ⟨2, []⟩⟩)], [], [], ""⟩ "t1" 5
        (WaitEvent.reply (Msg.success ⟨0⟩))).2.Sessions 7 = none
    ∧ (Handle.Detach ⟨9, "", "", ⟨8, []⟩⟩ ⟨7, [(9, ⟨9, "", "", ⟨8, []⟩⟩)], ⟨2, []⟩⟩
        ⟨[(7, ⟨7, [(9, ⟨9, "", "", ⟨8, []⟩⟩)], ⟨2, []⟩⟩)], [], [], ""⟩ "t2" 6
        (WaitEvent.reply (Msg.success ⟨0⟩))).1 = CallReturn.okNil
    ∧ lookupA (Handle.Detach ⟨9, "", "", ⟨8, []⟩⟩ ⟨7, [(9, ⟨9, "", "", ⟨8, []⟩⟩)], ⟨2, []⟩⟩
        ⟨[(7, ⟨7, [(9, ⟨9, "", "", ⟨8, []⟩⟩)], ⟨2, []⟩⟩)], [], [], ""⟩ "t2" 6
        (WaitEvent.reply (Msg.success ⟨0⟩))).2.1.Handles 9 = none
    ∧ (Gateway.Create ⟨[], [], [], ""⟩ "t3" 6 (WaitEvent.reply Msg.ack)).1
        = CallReturn.panicNilDeref
    ∧ (Session.Attach ⟨7, [], ⟨2, []⟩⟩ ⟨[(7, ⟨7, [], ⟨2, []⟩⟩)], [], [], ""⟩ "t4" 6 "p"
        (WaitEvent.reply Msg.ack)).1 = CallReturn.panicNilDeref
    ∧ (Handle.Trickle ⟨9, "", "", ⟨8, []⟩⟩ ⟨7, [], ⟨2, []⟩⟩ ⟨[], [], [], ""⟩ "t5" 6
        (Val.str "c") (WaitEvent.reply (Msg.success ⟨0⟩))).1
        = CallReturn.unexpectedResp "trickle" :=
  ⟨rfl, rfl, rfl, rfl, rfl, rfl, rfl⟩

end Janus
